import Mathlib

/-!
Verification development for the `ImageVisual` image pipeline of
`vispy/visuals/image.py`: the per-pixel color transform (GLSL snippets
`_APPLY_CLIM_FLOAT`, `_APPLY_CLIM`, `_APPLY_GAMMA_FLOAT`, `_APPLY_GAMMA`,
`_C2L_RED`, `_NULL_COLOR_TRANSFORM` composed by `_build_color_transform`),
the subdivide vertex geometry builder `_build_vertex_data`, the
dirty-flag scheduler `_prepare_draw`, and the property setters.

Modelling conventions:
- A GLSL `float` carried by a fragment is `Option ℝ`: `none` models NaN
  (the shaders test `!(x <= 0.0 || 0.0 <= x)`, which holds exactly for NaN).
- A fragment value is a `GLValue`: a scalar, a `vec4`, or a discarded
  fragment (`discard` in GLSL).
- Python floats are modelled by `ℚ` in the visual's state (every finite
  Python float is a rational); the shader-side arithmetic is over `ℝ`,
  with `pow` modelled by `Real.rpow`.
-/

/-- A GLSL vec4 color; each component is `none` when it is NaN. -/
structure GVec4 where
  r : Option ℝ
  g : Option ℝ
  b : Option ℝ
  a : Option ℝ

/-- A value flowing through the fragment shader's color pipeline. -/
inductive GLValue where
  | float (x : Option ℝ)
  | vec4 (v : GVec4)
  | discarded

/-- GLSL `clamp(x, lo, hi) = min(max(x, lo), hi)`. -/
noncomputable def clampR (x lo hi : ℝ) : ℝ := min (max x lo) hi

/-- `_APPLY_CLIM_FLOAT`: discard NaN, clamp to `[min(clim), max(clim)]`,
then rescale by `(data - clim.x) / (clim.y - clim.x)`. -/
noncomputable def apply_clim_float (clim : ℚ × ℚ) (x : Option ℝ) : GLValue :=
  match x with
  | none => .discarded
  | some data =>
    let lo : ℝ := min (clim.1 : ℝ) (clim.2 : ℝ)
    let hi : ℝ := max (clim.1 : ℝ) (clim.2 : ℝ)
    let c := clampR data lo hi
    .float (some ((c - (clim.1 : ℝ)) / ((clim.2 : ℝ) - (clim.1 : ℝ))))

/-- `_APPLY_GAMMA_FLOAT`: `pow(data, gamma)`; `pow` of NaN stays NaN. -/
noncomputable def apply_gamma_float (g : ℚ) (x : Option ℝ) : Option ℝ :=
  x.map (fun d => d ^ ((g : ℝ)))

/-- `_APPLY_CLIM` (vec4 path): NaN rgb components are replaced by
`min(clim)`, a NaN alpha by `0`; rgb are clamped and rescaled; finally
`max(color, 0.0)` componentwise. -/
noncomputable def apply_clim_vec (clim : ℚ × ℚ) (c : GVec4) : GVec4 :=
  let lo : ℝ := min (clim.1 : ℝ) (clim.2 : ℝ)
  let hi : ℝ := max (clim.1 : ℝ) (clim.2 : ℝ)
  let rescale : ℝ → ℝ := fun v =>
    (clampR v lo hi - (clim.1 : ℝ)) / ((clim.2 : ℝ) - (clim.1 : ℝ))
  { r := some (max (rescale (c.r.getD lo)) 0)
    g := some (max (rescale (c.g.getD lo)) 0)
    b := some (max (rescale (c.b.getD lo)) 0)
    a := some (max (c.a.getD 0) 0) }

/-- `_APPLY_GAMMA` (vec4 path): `pow` applied to rgb, alpha untouched. -/
noncomputable def apply_gamma_vec (g : ℚ) (c : GVec4) : GVec4 :=
  { c with
    r := c.r.map (fun d => d ^ ((g : ℝ)))
    g := c.g.map (fun d => d ^ ((g : ℝ)))
    b := c.b.map (fun d => d ^ ((g : ℝ))) }

/-- One stage of the `FunctionChain` built by `_build_color_transform`.
The colormap GLSL (`self.cmap.glsl_map`) lives outside this repository,
so the `cmapStage` carries only the colormap's name; its semantics is an
abstract parameter of `applyChain`. -/
inductive Stage where
  | redToLuminance
  | climFloat (clim : ℚ × ℚ)
  | gammaFloat (g : ℚ)
  | cmapStage (name : String)
  | nullColor
  | climVec (clim : ℚ × ℚ)
  | gammaVec (g : ℚ)
deriving DecidableEq

/-- Abstract semantics of a named colormap's `glsl_map`
(external colormap library, a declared non-goal of the spec). -/
def CmapSem : Type := String → Option ℝ → GVec4

/-- Apply one chain stage to a fragment value. Stage and value kinds that
could not meet in a type-correct GLSL program map to `discarded`. -/
noncomputable def applyStage (sem : CmapSem) (st : Stage) (v : GLValue) : GLValue :=
  match st, v with
  | _, .discarded => .discarded
  | .redToLuminance, .vec4 c => .float c.r
  | .climFloat cl, .float x => apply_clim_float cl x
  | .gammaFloat g, .float x => .float (apply_gamma_float g x)
  | .cmapStage n, .float x => .vec4 (sem n x)
  | .nullColor, .vec4 c => .vec4 c
  | .climVec cl, .vec4 c => .vec4 (apply_clim_vec cl c)
  | .gammaVec g, .vec4 c => .vec4 (apply_gamma_vec g c)
  | _, _ => .discarded

/-- `FunctionChain`: stages composed left to right. -/
noncomputable def applyChain (sem : CmapSem) (chain : List Stage) (v : GLValue) : GLValue :=
  chain.foldl (fun acc st => applyStage sem st acc) v

/-- `_build_color_transform`: luminance data get
`[red_to_luminance, clim_float, gamma_float, cmap]`, RGB(A) data get
`[null_color_transform, clim, gamma]`; `fclim` is loaded with the
texture's normalized clims and `fgamma` with the visual's gamma. -/
def build_color_transform (lum : Bool) (cmapName : String)
    (climN : ℚ × ℚ) (g : ℚ) : List Stage :=
  if lum then
    [Stage.redToLuminance, Stage.climFloat climN, Stage.gammaFloat g,
     Stage.cmapStage cmapName]
  else
    [Stage.nullColor, Stage.climVec climN, Stage.gammaVec g]

/-- Write the `clim` template variable of a chain stage
(`fun_['clim'] = value`). -/
def setStageClim (c : ℚ × ℚ) (st : Stage) : Stage :=
  match st with
  | .climFloat _ => .climFloat c
  | .climVec _ => .climVec c
  | st => st

/-- Write the `gamma` template variable of a chain stage
(`fun_['gamma'] = value`). -/
def setStageGamma (g : ℚ) (st : Stage) : Stage :=
  match st with
  | .gammaFloat _ => .gammaFloat g
  | .gammaVec _ => .gammaVec g
  | st => st

/-- `color_transform[1]['clim'] = c`: the in-place clim uniform update on
an existing chain (index 1 is the clim stage in both chains). -/
def setChainClim (chain : List Stage) (c : ℚ × ℚ) : List Stage :=
  match chain with
  | s0 :: s1 :: rest => s0 :: setStageClim c s1 :: rest
  | l => l

/-- `color_transform[2]['gamma'] = g`: the in-place gamma uniform update
on an existing chain (index 2 is the gamma stage in both chains). -/
def setChainGamma (chain : List Stage) (g : ℚ) : List Stage :=
  match chain with
  | s0 :: s1 :: s2 :: rest => s0 :: s1 :: setStageGamma g s2 :: rest
  | l => l

/-- One quad of `_build_vertex_data`: the base quad
`[[0,0],[w,0],[w,h],[0,0],[w,h],[0,h]]` (`w = 1/cols`, `h = 1/rows`)
offset by `(i*w, j*h)`. -/
def quadTexCoords (rows cols i j : ℕ) : List (ℚ × ℚ) :=
  let w : ℚ := 1 / cols
  let h : ℚ := 1 / rows
  let x : ℚ := i * w
  let y : ℚ := j * h
  [(x, y), (x + w, y), (x + w, y + h), (x, y), (x + w, y + h), (x, y + h)]

/-- The texture-coordinate buffer of `_build_vertex_data`: the
`(cols, rows, 6, 3)` quad array reshaped row-major (columns outer,
rows inner), z column dropped. -/
def subdivTexCoords (rows cols : ℕ) : List (ℚ × ℚ) :=
  (List.range cols).flatMap fun i =>
    (List.range rows).flatMap fun j => quadTexCoords rows cols i j

/-- The position buffer of `_build_vertex_data`:
`vertices = tex_coords * self.size` with `size = (width, height)`. -/
def subdivPositions (rows cols : ℕ) (sz : ℕ × ℕ) : List (ℚ × ℚ) :=
  (subdivTexCoords rows cols).map fun p => (p.1 * (sz.1 : ℚ), p.2 * (sz.2 : ℚ))

/-- `_impostor_coords`: the fixed full-viewport quad in clip coordinates. -/
def impostor_coords : List (ℚ × ℚ) :=
  [(-1, -1), (1, -1), (1, 1), (-1, -1), (1, 1), (-1, 1)]

/-- Python `str.lower()` on one character (ASCII range). -/
def charToLower (c : Char) : Char :=
  if 65 ≤ c.toNat ∧ c.toNat ≤ 90 then Char.ofNat (c.toNat + 32) else c

/-- Python `str.lower()` (the interpolation names are ASCII). -/
def strToLower (s : String) : String := String.mk (s.data.map charToLower)

/-- Python `<=` on strings: lexicographic comparison by code point. -/
def lexLe : List Char → List Char → Bool
  | [], _ => true
  | _ :: _, [] => false
  | a :: as, b :: bs =>
    if a.toNat < b.toNat then true
    else if b.toNat < a.toNat then false
    else lexLe as bs

/-- Python `<=` on strings, on `String`. -/
def strLe (a b : String) : Bool := lexLe a.data b.data

/-- Insertion into a `strLe`-sorted list (used to model Python `sorted`). -/
def insertSorted (x : String) : List String → List String
  | [] => [x]
  | y :: ys => if strLe x y then x :: y :: ys else y :: insertSorted x ys

/-- Python `sorted` on strings (insertion sort; same ascending order). -/
def sortNames (l : List String) : List String := l.foldr insertSorted []

/-- Modelled from the spec: the interpolation kernel names returned by
`load_spatial_filters` (in `vispy.io`, not among the sources here); they
are the modes listed in the `ImageVisual` docstring, capitalized as the
kernel registry delivers them before `_init_interpolation` lowercases
them. -/
def spatial_filter_names : List String :=
  ["Nearest", "Bilinear", "Hanning", "Hamming", "Hermite", "Kaiser",
   "Quadric", "Bicubic", "CatRom", "Mitchell", "Spline16", "Spline36",
   "Gaussian", "Bessel", "Sinc", "Lanczos", "Blackman"]

/-- `_init_interpolation`: the registry's known mode names, lowercased
and sorted (`tuple(sorted([n.lower() for n in interpolation_names]))`).
The shader-function dictionary it also builds (with `nearest` and
`bilinear` remapped to the hardware lookup) does not change the names. -/
def init_interpolation (names : List String) : List String :=
  sortNames (names.map strToLower)

/-- The `ValueError` message of the interpolation setter:
`"interpolation must be one of %s" % ', '.join(names)`. -/
def interpolation_must_be_msg (names : List String) : String :=
  "interpolation must be one of " ++ String.intercalate ", " names

/-- Shape and band data of a numpy image array; pixel contents are not
inspected by the logic under verification. `channels = none` models a 2D
`(M, N)` array. -/
structure ImageData where
  rows : ℕ
  cols : ℕ
  channels : Option ℕ
deriving DecidableEq

/-- `data.shape[:2]`. -/
def shape2 (d : ImageData) : ℕ × ℕ := (d.rows, d.cols)

/-- `self.size`: `self._data.shape[:2][::-1]`, i.e. `(width, height)`. -/
def size (d : ImageData) : ℕ × ℕ := (d.cols, d.rows)

/-- Luminance test of `_build_color_transform`:
`self._data.ndim == 2 or self._data.shape[2] == 1`. -/
def lumData (d : ImageData) : Bool :=
  d.channels.isNone || d.channels == some 1

/-- Modelled from the spec: the internal texture storage format the
scaled texture adopts for the given data; it tracks the data's band
count (`_scalable_textures.py` is not among the sources). -/
def adopted_internalformat (d : ImageData) : ℕ :=
  match d.channels with
  | none => 1
  | some c => c

/-- State of the scaled texture (`CPUScaledTexture2D` /
`GPUScaledTexture2D`, `_scalable_textures.py`; modelled from the spec).
`clim_normalized` is kept total: the `RuntimeError` it raises in the
source occurs only before any data upload, when the color-transform
rebuild flag is still set and the callers below return early. -/
structure TextureState where
  clim_normalized : ℚ × ℚ
  internalformat : ℕ
  interpolation : String
deriving DecidableEq

/-- Modelled from the spec: `scale_and_set_data` uploads the data and
adapts the texture's internal storage format to it, reporting a format
change through the stored `internalformat`. -/
def scale_and_set_data (t : TextureState) (d : ImageData) : TextureState :=
  { t with internalformat := adopted_internalformat d }

/-- The mutable state of an `ImageVisual` touched by the claims: data,
configuration, the four dirty flags, and the shader-uniform side state
(`color_transform` chain, lookup function, kernel/shape uniforms, vertex
buffers, LUT, `image_size`). -/
structure ImageVisualState where
  data : Option ImageData
  texture : TextureState
  method : String
  grid : ℕ × ℕ
  cmap : String
  gamma : ℚ
  interpolation : String
  interpolation_names : List String
  need_texture_upload : Bool
  need_vertex_update : Bool
  need_colortransform_update : Bool
  need_interpolation_update : Bool
  color_transform : Option (List Stage)
  data_lookup_fn : Option String
  u_kernel_set : Bool
  u_shape : Option (ℕ × ℕ)
  subdiv_position : List (ℚ × ℚ)
  subdiv_texcoord : List (ℚ × ℚ)
  lut_set : Bool
  u_image_size : Option (ℕ × ℕ)
deriving DecidableEq

/-- Per-view state (`_init_view` fields plus the view-program bindings
written by `_update_method`). -/
structure ViewState where
  need_method_update : Bool
  method_used : Option String
  transform_linear : Bool
  u_method : Option ℕ
  a_position : List (ℚ × ℚ)
  a_texcoord : List (ℚ × ℚ)
deriving DecidableEq

/-- The `ValueError`s raised by the image pipeline. -/
inductive ImgError where
  | invalidInterpolation (msg : String)
  | nonPositiveGamma
  | unknownMethod (m : String)
deriving DecidableEq

deriving instance DecidableEq for Except

/-- The condition of `set_data` for marking vertex geometry dirty:
`self._data is None or self._data.shape[:2] != data.shape[:2]`. -/
def vertexRebuildNeeded (prev : Option ImageData) (d : ImageData) : Bool :=
  match prev with
  | none => true
  | some old => shape2 old != shape2 d

/-- `set_data`: store the (valid) array, mark texture upload dirty, and
mark vertex geometry dirty when there was no previous data or the first
two dimensions changed. The dtype cast and
`self._texture.check_data_format(data)` are modelled as succeeding: the
claims quantify over valid arrays only. -/
def set_data (s : ImageVisualState) (d : ImageData) : ImageVisualState :=
  let s := if vertexRebuildNeeded s.data d then { s with need_vertex_update := true } else s
  { s with data := some d, need_texture_upload := true }

/-- `_update_colortransform_clim`: when no full rebuild is pending,
write the texture's normalized clims into the clim uniform of the
existing chain (index 1). -/
def update_colortransform_clim (s : ImageVisualState) : ImageVisualState :=
  if s.need_colortransform_update then s
  else
    { s with color_transform :=
        s.color_transform.map fun ch => setChainClim ch s.texture.clim_normalized }

/-- The state produced by a successful `gamma` setter call: store
`float(value)` and, when no rebuild is pending, write the gamma uniform
of the existing chain (index 2) in place. -/
def gammaSuccessState (s : ImageVisualState) (v : ℚ) : ImageVisualState :=
  let s := { s with gamma := v }
  if s.need_colortransform_update then s
  else { s with color_transform := s.color_transform.map fun ch => setChainGamma ch v }

/-- The `gamma` setter: `ValueError` for `value <= 0` (raised before any
mutation), otherwise the fast-path update. -/
def set_gamma (s : ImageVisualState) (v : ℚ) : Except ImgError ImageVisualState :=
  if v ≤ 0 then .error .nonPositiveGamma
  else .ok (gammaSuccessState s v)

/-- The `method` setter: no validation; a different value is stored and
marks vertex geometry dirty, the same value is a no-op. -/
def set_method (s : ImageVisualState) (m : String) : ImageVisualState :=
  if s.method ≠ m then { s with method := m, need_vertex_update := true } else s

/-- The `interpolation` setter: unknown names raise `ValueError` listing
the registry names; a different known name is stored and marks the
interpolation dirty flag; the same name is a no-op. -/
def set_interpolation (s : ImageVisualState) (i : String) :
    Except ImgError ImageVisualState :=
  if i ∈ s.interpolation_names then
    if s.interpolation ≠ i then
      .ok { s with interpolation := i, need_interpolation_update := true }
    else .ok s
  else .error (.invalidInterpolation (interpolation_must_be_msg s.interpolation_names))

/-- `_build_interpolation`: install the lookup function, bind kernel and
shape uniforms for the software filters, set the texture's hardware
filtering mode, clear the flag. -/
def build_interpolation (s : ImageVisualState) (d : ImageData) : ImageVisualState :=
  let s := { s with data_lookup_fn := some s.interpolation }
  let s :=
    if s.interpolation = "bilinear" then
      { s with texture := { s.texture with interpolation := "linear" } }
    else
      let s :=
        if s.interpolation ≠ "nearest" then
          { s with u_kernel_set := true, u_shape := some (size d) }
        else s
      { s with texture := { s.texture with interpolation := "nearest" } }
  { s with need_interpolation_update := false }

/-- `_build_texture`: upload via `scale_and_set_data`; if the internal
format changed, mark the color transform for rebuild, otherwise refresh
the chain's clim uniform in place; clear the upload flag. -/
def build_texture (s : ImageVisualState) (d : ImageData) : ImageVisualState :=
  let pre := s.texture.internalformat
  let t := scale_and_set_data s.texture d
  let s := { s with texture := t }
  if t.internalformat ≠ pre then
    { s with need_colortransform_update := true, need_texture_upload := false }
  else
    let s := { s with color_transform :=
        s.color_transform.map fun ch => setChainClim ch t.clim_normalized }
    { s with need_texture_upload := false }

/-- The color-transform build step of `_prepare_draw`: install the chain
from `_build_color_transform`, clear the flag, upload the colormap LUT. -/
def build_colortransform_step (s : ImageVisualState) (d : ImageData) : ImageVisualState :=
  { s with
    color_transform :=
      some (build_color_transform (lumData d) s.cmap s.texture.clim_normalized s.gamma),
    need_colortransform_update := false,
    lut_set := true }

/-- `_build_vertex_data`: fill the subdivide position and texcoord
buffers from the grid and the image size, clear the flag. -/
def build_vertex_data (s : ImageVisualState) (d : ImageData) : ImageVisualState :=
  { s with
    subdiv_position := subdivPositions s.grid.1 s.grid.2 (size d),
    subdiv_texcoord := subdivTexCoords s.grid.1 s.grid.2,
    need_vertex_update := false }

/-- `_update_method`: resolve `auto` by the view transform's linearity,
bind the method uniform and vertex attributes, set `image_size`, clear
the per-view flag; unknown resolved names raise `ValueError`. The
`_prepare_transforms` call wires external transforms and is not
modelled. -/
def update_method (s : ImageVisualState) (vw : ViewState) (d : ImageData) :
    Except ImgError (ImageVisualState × ViewState) :=
  let m := if s.method = "auto" then
      (if vw.transform_linear then "subdivide" else "impostor")
    else s.method
  let vw := { vw with method_used := some m }
  if m = "subdivide" then
    .ok ({ s with u_image_size := some (size d) },
         { vw with u_method := some 0, a_position := s.subdiv_position,
                   a_texcoord := s.subdiv_texcoord, need_method_update := false })
  else if m = "impostor" then
    .ok ({ s with u_image_size := some (size d) },
         { vw with u_method := some 1, a_position := impostor_coords,
                   a_texcoord := impostor_coords, need_method_update := false })
  else .error (.unknownMethod m)

/-- The five builders `_prepare_draw` can invoke, in its fixed order. -/
inductive Builder where
  | interpolation
  | texture
  | colortransform
  | vertex
  | methodResolution
deriving DecidableEq

/-- Result of `_prepare_draw`: `False` ("nothing to draw") or the
updated states plus the trace of builders that ran. -/
inductive DrawPrep where
  | nothingToDraw
  | prepared (s : ImageVisualState) (vw : ViewState) (ran : List Builder)
deriving DecidableEq

/-- Step 1 of `_prepare_draw`: interpolation rebuild when flagged. -/
def interpStep (s : ImageVisualState) (d : ImageData) : ImageVisualState × List Builder :=
  if s.need_interpolation_update then (build_interpolation s d, [Builder.interpolation])
  else (s, [])

/-- Step 2 of `_prepare_draw`: texture upload when flagged. -/
def textureStep (s : ImageVisualState) (d : ImageData) : ImageVisualState × List Builder :=
  if s.need_texture_upload then (build_texture s d, [Builder.texture])
  else (s, [])

/-- Step 3 of `_prepare_draw`: color-transform rebuild when flagged. -/
def colorStep (s : ImageVisualState) (d : ImageData) : ImageVisualState × List Builder :=
  if s.need_colortransform_update then (build_colortransform_step s d, [Builder.colortransform])
  else (s, [])

/-- Step 4 of `_prepare_draw`: vertex geometry rebuild when flagged. -/
def vertexStep (s : ImageVisualState) (d : ImageData) : ImageVisualState × List Builder :=
  if s.need_vertex_update then (build_vertex_data s d, [Builder.vertex])
  else (s, [])

/-- Step 5 of `_prepare_draw`: per-view method resolution when flagged. -/
def methodStep (s : ImageVisualState) (vw : ViewState) (d : ImageData) :
    Except ImgError (ImageVisualState × ViewState × List Builder) :=
  if vw.need_method_update then
    match update_method s vw d with
    | .error e => .error e
    | .ok p => .ok (p.1, p.2, [Builder.methodResolution])
  else .ok (s, vw, [])

/-- `_prepare_draw`: `False` when no data is present; otherwise the five
steps in their fixed order. -/
def prepare_draw (s0 : ImageVisualState) (vw : ViewState) : Except ImgError DrawPrep :=
  match s0.data with
  | none => .ok .nothingToDraw
  | some d =>
    let p1 := interpStep s0 d
    let p2 := textureStep p1.1 d
    let p3 := colorStep p2.1 d
    let p4 := vertexStep p3.1 d
    match methodStep p4.1 vw d with
    | .error e => .error e
    | .ok q => .ok (.prepared q.1 q.2.1 (p1.2 ++ p2.2 ++ p3.2 ++ p4.2 ++ q.2.2))

/-- The registry names as the constructor computes them. -/
def default_interpolation_names : List String :=
  init_interpolation spatial_filter_names

/-- A representative texture state: luminance format, normalized clims
`(0, 1)`, hardware nearest filtering. -/
def tex0 : TextureState :=
  { clim_normalized := (0, 1), internalformat := 1, interpolation := "nearest" }

/-- A representative 4x4 luminance image. -/
def data0 : ImageData := { rows := 4, cols := 4, channels := none }

/-- A representative fully-built visual state: data present, all dirty
flags clear, the luminance chain installed. -/
def img0 : ImageVisualState :=
  { data := some data0
    texture := tex0
    method := "auto"
    grid := (1, 1)
    cmap := "viridis"
    gamma := 1
    interpolation := "nearest"
    interpolation_names := default_interpolation_names
    need_texture_upload := false
    need_vertex_update := false
    need_colortransform_update := false
    need_interpolation_update := false
    color_transform := some (build_color_transform true "viridis" (0, 1) 1)
    data_lookup_fn := some "nearest"
    u_kernel_set := false
    u_shape := none
    subdiv_position := subdivPositions 1 1 (4, 4)
    subdiv_texcoord := subdivTexCoords 1 1
    lut_set := true
    u_image_size := some (4, 4) }

/-- A fresh view attached to the visual, with a linear transform. -/
def view0 : ViewState :=
  { need_method_update := true, method_used := none, transform_linear := true,
    u_method := none, a_position := [], a_texcoord := [] }

/-- The builder trace of a `_prepare_draw` result. -/
def ranOf : Except ImgError DrawPrep → List Builder
  | .ok (.prepared _ _ ran) => ran
  | _ => []

/-- The visual state of a successful `_prepare_draw` result
(falling back to `img0` elsewhere). -/
def prepStateD : Except ImgError DrawPrep → ImageVisualState
  | .ok (.prepared s _ _) => s
  | _ => img0

/-- The view state of a successful `_prepare_draw` result
(falling back to `view0` elsewhere). -/
def prepViewD : Except ImgError DrawPrep → ViewState
  | .ok (.prepared _ vw _) => vw
  | _ => view0

lemma setChainClim_build (lum : Bool) (cmapName : String) (c₀ c : ℚ × ℚ) (g : ℚ) :
    setChainClim (build_color_transform lum cmapName c₀ g) c
      = build_color_transform lum cmapName c g := by
  cases lum <;> rfl

lemma setChainGamma_build (lum : Bool) (cmapName : String) (c₀ : ℚ × ℚ) (g₀ g : ℚ) :
    setChainGamma (build_color_transform lum cmapName c₀ g₀) g
      = build_color_transform lum cmapName c₀ g := by
  cases lum <;> rfl

/-- C1: for luminance (single-band) data the composed color transform
applies, per pixel value `d`, first the clamp to
`[min(clim), max(clim)]`, then the rescale `(d - clim.1)/(clim.2 - clim.1)`,
then `pow(., gamma)`, and feeds the result to the colormap; for
`clim = (0, 1)` the input `1/2` reaches the colormap as exactly `1/2`
when `gamma = 1` and as exactly `1/4` when `gamma = 2`. -/
theorem luminance_color_transform_clamp_normalize_gamma :
    (∀ (sem : CmapSem) (name : String) (c : ℚ × ℚ) (g : ℚ)
        (d : ℝ) (gg bb aa : Option ℝ),
      applyChain sem (build_color_transform true name c g)
          (.vec4 ⟨some d, gg, bb, aa⟩)
        = .vec4 (sem name (some
            (((clampR d (min (c.1 : ℝ) (c.2 : ℝ)) (max (c.1 : ℝ) (c.2 : ℝ))
                - (c.1 : ℝ)) / ((c.2 : ℝ) - (c.1 : ℝ))) ^ ((g : ℝ))))))
    ∧ (∀ (sem : CmapSem) (name : String),
      applyChain sem (build_color_transform true name (0, 1) 1)
          (.vec4 ⟨some (1/2), none, none, none⟩)
        = .vec4 (sem name (some (1/2))))
    ∧ (∀ (sem : CmapSem) (name : String),
      applyChain sem (build_color_transform true name (0, 1) 2)
          (.vec4 ⟨some (1/2), none, none, none⟩)
        = .vec4 (sem name (some (1/4)))) := by
  refine ⟨fun sem name c g d gg bb aa => ?_, fun sem name => ?_, fun sem name => ?_⟩
  · simp [applyChain, build_color_transform, applyStage, apply_clim_float,
      apply_gamma_float, clampR]
  · simp [applyChain, build_color_transform, applyStage, apply_clim_float,
      apply_gamma_float, clampR]
    norm_num
  · simp [applyChain, build_color_transform, applyStage, apply_clim_float,
      apply_gamma_float, clampR]
    norm_num

/-- C2: when no rebuild is pending, the in-place clim fast path
(`_update_colortransform_clim`) and the in-place gamma fast path (the
`gamma` setter) each leave the visual with exactly the chain that
`_build_color_transform` would rebuild from scratch with the same clim,
gamma, colormap and band count — so the per-pixel results agree. -/
theorem colortransform_fastpath_equals_rebuild
    (s : ImageVisualState) (lum : Bool) (cmapName : String)
    (c₀ : ℚ × ℚ) (g₀ g : ℚ) (sem : CmapSem) (x : GLValue)
    (hg : 0 < g)
    (hflag : s.need_colortransform_update = false)
    (hchain : s.color_transform = some (build_color_transform lum cmapName c₀ g₀)) :
    ((update_colortransform_clim s).color_transform
        = some (build_color_transform lum cmapName s.texture.clim_normalized g₀)
      ∧ applyChain sem ((update_colortransform_clim s).color_transform.getD []) x
        = applyChain sem
            (build_color_transform lum cmapName s.texture.clim_normalized g₀) x)
    ∧ (set_gamma s g = .ok (gammaSuccessState s g)
      ∧ (gammaSuccessState s g).color_transform
        = some (build_color_transform lum cmapName c₀ g)
      ∧ applyChain sem ((gammaSuccessState s g).color_transform.getD []) x
        = applyChain sem (build_color_transform lum cmapName c₀ g) x) := by
  have hclim : (update_colortransform_clim s).color_transform
      = some (build_color_transform lum cmapName s.texture.clim_normalized g₀) := by
    simp [update_colortransform_clim, hflag, hchain, setChainClim_build]
  have hgam : (gammaSuccessState s g).color_transform
      = some (build_color_transform lum cmapName c₀ g) := by
    simp [gammaSuccessState, hflag, hchain, setChainGamma_build]
  refine ⟨⟨hclim, by rw [hclim]; rfl⟩, ?_, hgam, by rw [hgam]; rfl⟩
  simp [set_gamma, not_le.mpr hg]

/-- Witness for C2 at a concrete state and concrete inputs. -/
theorem colortransform_fastpath_equals_rebuild_witness :
    (0 : ℚ) < 2 ∧ img0.need_colortransform_update = false
    ∧ img0.color_transform = some (build_color_transform true "viridis" (0, 1) 1)
    ∧ (((update_colortransform_clim img0).color_transform
          = some (build_color_transform true "viridis" img0.texture.clim_normalized 1)
        ∧ applyChain (fun _ v => ⟨v, v, v, v⟩)
            ((update_colortransform_clim img0).color_transform.getD [])
            (.vec4 ⟨some (1/2), none, none, some 1⟩)
          = applyChain (fun _ v => ⟨v, v, v, v⟩)
              (build_color_transform true "viridis" img0.texture.clim_normalized 1)
              (.vec4 ⟨some (1/2), none, none, some 1⟩))
      ∧ (set_gamma img0 2 = .ok (gammaSuccessState img0 2)
        ∧ (gammaSuccessState img0 2).color_transform
          = some (build_color_transform true "viridis" (0, 1) 2)
        ∧ applyChain (fun _ v => ⟨v, v, v, v⟩)
            ((gammaSuccessState img0 2).color_transform.getD [])
            (.vec4 ⟨some (1/2), none, none, some 1⟩)
          = applyChain (fun _ v => ⟨v, v, v, v⟩)
              (build_color_transform true "viridis" (0, 1) 2)
              (.vec4 ⟨some (1/2), none, none, some 1⟩))) :=
  ⟨by norm_num, rfl, rfl,
    colortransform_fastpath_equals_rebuild img0 true "viridis" (0, 1) 1 2
      (fun _ v => ⟨v, v, v, v⟩) (.vec4 ⟨some (1/2), none, none, some 1⟩)
      (by norm_num) rfl rfl⟩

lemma set_data_vertex_flag (s : ImageVisualState) (a : ImageData) :
    (set_data s a).need_vertex_update
      = (s.need_vertex_update || vertexRebuildNeeded s.data a) := by
  by_cases h : vertexRebuildNeeded s.data a = true <;> simp [set_data, h]

lemma set_data_data (s : ImageVisualState) (a : ImageData) :
    (set_data s a).data = some a := by
  by_cases h : vertexRebuildNeeded s.data a = true <;> simp [set_data, h]

lemma set_data_texture_flag (s : ImageVisualState) (a : ImageData) :
    (set_data s a).need_texture_upload = true := by
  by_cases h : vertexRebuildNeeded s.data a = true <;> simp [set_data, h]

/-- C3: `set_data` always marks texture upload dirty; it marks vertex
geometry dirty exactly when no data was stored before or the first two
dimensions changed (when the flag was clear, it ends up set iff that
condition holds); a second `set_data` with the same first-two-dimension
shape leaves the vertex flag as it was. -/
theorem set_data_dirty_flags (s : ImageVisualState) (a b : ImageData)
    (hclear : s.need_vertex_update = false) :
    ((set_data s a).need_texture_upload = true
      ∧ (set_data (set_data s a) b).need_texture_upload = true)
    ∧ (set_data s a).need_vertex_update
        = (s.need_vertex_update || vertexRebuildNeeded s.data a)
    ∧ ((set_data s a).need_vertex_update = true
          ↔ vertexRebuildNeeded s.data a = true)
    ∧ (set_data (set_data s a) b).need_vertex_update
        = ((set_data s a).need_vertex_update || (shape2 a != shape2 b)) := by
  refine ⟨⟨set_data_texture_flag s a, set_data_texture_flag _ b⟩, ?_, ?_, ?_⟩
  · exact set_data_vertex_flag s a
  · rw [set_data_vertex_flag s a, hclear]; simp
  · rw [set_data_vertex_flag (set_data s a) b, set_data_data s a]
    rfl

/-- Witness for C3 at a concrete state and image. -/
theorem set_data_dirty_flags_witness :
    img0.need_vertex_update = false
    ∧ (((set_data img0 data0).need_texture_upload = true
        ∧ (set_data (set_data img0 data0) data0).need_texture_upload = true)
      ∧ (set_data img0 data0).need_vertex_update
          = (img0.need_vertex_update || vertexRebuildNeeded img0.data data0)
      ∧ ((set_data img0 data0).need_vertex_update = true
            ↔ vertexRebuildNeeded img0.data data0 = true)
      ∧ (set_data (set_data img0 data0) data0).need_vertex_update
          = ((set_data img0 data0).need_vertex_update
              || (shape2 data0 != shape2 data0))) :=
  ⟨rfl, set_data_dirty_flags img0 data0 data0 rfl⟩

/-- C8: the `gamma` setter fails exactly for `value <= 0` (raising
before any state is touched, so on failure nothing is mutated); on
success the stored gamma is the written value, so `gamma > 0` holds
after every successful write. -/
theorem set_gamma_positive_invariant (s : ImageVisualState) (v : ℚ) :
    set_gamma s v
      = (if v ≤ 0 then .error .nonPositiveGamma else .ok (gammaSuccessState s v))
    ∧ (¬ v ≤ 0 →
        (gammaSuccessState s v).gamma = v ∧ 0 < (gammaSuccessState s v).gamma) := by
  refine ⟨rfl, fun h => ?_⟩
  have hg : (gammaSuccessState s v).gamma = v := by
    by_cases hf : s.need_colortransform_update = true <;> simp [gammaSuccessState, hf]
  exact ⟨hg, by rw [hg]; exact not_le.mp h⟩

/-- Witness for C8 at a concrete state and value. -/
theorem set_gamma_positive_invariant_witness :
    set_gamma img0 2
      = (if (2 : ℚ) ≤ 0 then .error .nonPositiveGamma
         else .ok (gammaSuccessState img0 2))
    ∧ (¬ (2 : ℚ) ≤ 0 →
        (gammaSuccessState img0 2).gamma = 2
          ∧ 0 < (gammaSuccessState img0 2).gamma) :=
  set_gamma_positive_invariant img0 2

/-- C10 counterexample: assigning the different but invalid method name
"bogus" still sets the vertex-geometry dirty flag (the method setter
performs no validity check), refuting "only an assignment of a different
(valid) value sets the corresponding dirty flag". -/
theorem set_method_invalid_sets_flag_cex :
    img0.need_vertex_update = false
    ∧ ("bogus" ∉ (["auto", "subdivide", "impostor"] : List String))
    ∧ (set_method img0 "bogus").need_vertex_update = true :=
  ⟨rfl, by decide, by decide⟩

/-- C10 (amended): assigning the current value to the method or
interpolation property is an exact no-op (no flag, no other change);
any different value sets the method's vertex flag (valid or not), and a
different registry name sets the interpolation flag. -/
theorem setter_same_value_noop (s : ImageVisualState) (m i : String)
    (hm : s.method ≠ m)
    (hcur : s.interpolation ∈ s.interpolation_names)
    (hi : i ∈ s.interpolation_names) (hine : s.interpolation ≠ i) :
    set_method s s.method = s
    ∧ set_interpolation s s.interpolation = .ok s
    ∧ set_method s m = { s with method := m, need_vertex_update := true }
    ∧ set_interpolation s i
        = .ok { s with interpolation := i, need_interpolation_update := true } := by
  refine ⟨?_, ?_, ?_, ?_⟩
  · simp [set_method]
  · simp [set_interpolation, hcur]
  · simp [set_method, hm]
  · simp [set_interpolation, hi, hine]

/-- Witness for C10 (amended) at concrete inputs. -/
theorem setter_same_value_noop_witness :
    img0.method ≠ "subdivide"
    ∧ img0.interpolation ∈ img0.interpolation_names
    ∧ "bilinear" ∈ img0.interpolation_names
    ∧ img0.interpolation ≠ "bilinear"
    ∧ (set_method img0 img0.method = img0
      ∧ set_interpolation img0 img0.interpolation = .ok img0
      ∧ set_method img0 "subdivide"
          = { img0 with method := "subdivide", need_vertex_update := true }
      ∧ set_interpolation img0 "bilinear"
          = .ok { img0 with interpolation := "bilinear",
                            need_interpolation_update := true }) :=
  ⟨by decide, by decide, by decide, by decide,
    setter_same_value_noop img0 "subdivide" "bilinear"
      (by decide) (by decide) (by decide) (by decide)⟩

set_option maxRecDepth 4000 in
/-- C6 counterexample: "Nearest" matches the registry name "nearest"
under case-insensitive comparison, yet the interpolation setter rejects
it — the comparison the setter performs is case-sensitive against the
lowercased registry names. -/
theorem set_interpolation_case_sensitive_cex :
    strToLower "Nearest" ∈ img0.interpolation_names
    ∧ set_interpolation img0 "Nearest"
        = .error (.invalidInterpolation
            (interpolation_must_be_msg default_interpolation_names)) :=
  ⟨by decide, by decide⟩

/-- C6 (amended): the interpolation setter succeeds iff the requested
string is exactly one of the registry's names as stored — lowercased at
init — and otherwise fails with the `ValueError` whose message lists all
the valid names; the registry list is sorted alphabetically. -/
theorem set_interpolation_validation (s : ImageVisualState) (i : String)
    (hreg : s.interpolation_names = default_interpolation_names) :
    set_interpolation s i
      = (if i ∈ default_interpolation_names then
           (if s.interpolation ≠ i then
              .ok { s with interpolation := i, need_interpolation_update := true }
            else .ok s)
         else .error (.invalidInterpolation
            (interpolation_must_be_msg default_interpolation_names)))
    ∧ List.Sorted (fun a b => strLe a b = true) default_interpolation_names
    ∧ default_interpolation_names = sortNames (spatial_filter_names.map strToLower) := by
  refine ⟨?_, by decide, rfl⟩
  simp only [set_interpolation, hreg]

/-- Witness for C6 (amended) at a concrete state and name. -/
theorem set_interpolation_validation_witness :
    img0.interpolation_names = default_interpolation_names
    ∧ (set_interpolation img0 "bilinear"
        = (if "bilinear" ∈ default_interpolation_names then
             (if img0.interpolation ≠ "bilinear" then
                .ok { img0 with interpolation := "bilinear",
                                need_interpolation_update := true }
              else .ok img0)
           else .error (.invalidInterpolation
              (interpolation_must_be_msg default_interpolation_names)))
      ∧ List.Sorted (fun a b => strLe a b = true) default_interpolation_names
      ∧ default_interpolation_names
          = sortNames (spatial_filter_names.map strToLower)) :=
  ⟨rfl, set_interpolation_validation img0 "bilinear" rfl⟩

lemma update_method_unknown (s : ImageVisualState) (vw : ViewState) (d : ImageData)
    (h1 : s.method ≠ "auto") (h2 : s.method ≠ "subdivide")
    (h3 : s.method ≠ "impostor") :
    update_method s vw d = .error (.unknownMethod s.method) := by
  simp [update_method, h1, h2, h3]

lemma set_method_method (s : ImageVisualState) (m : String) :
    (set_method s m).method = m := by
  by_cases h : s.method = m
  · simp [set_method, h]
  · simp [set_method, h]

lemma interpStep_method (s : ImageVisualState) (d : ImageData) :
    (interpStep s d).1.method = s.method := by
  unfold interpStep build_interpolation
  split <;> simp <;> split_ifs <;> rfl

lemma textureStep_method (s : ImageVisualState) (d : ImageData) :
    (textureStep s d).1.method = s.method := by
  unfold textureStep build_texture
  split <;> simp <;> split_ifs <;> rfl

lemma colorStep_method (s : ImageVisualState) (d : ImageData) :
    (colorStep s d).1.method = s.method := by
  unfold colorStep build_colortransform_step
  split <;> rfl

lemma vertexStep_method (s : ImageVisualState) (d : ImageData) :
    (vertexStep s d).1.method = s.method := by
  unfold vertexStep build_vertex_data
  split <;> rfl

/-- C7 counterexample: assigning the unknown method name "bogus"
succeeds at the mutator (the value is stored, no error), and the
invalid-configuration `ValueError` is raised only at the next draw, by
`_update_method` inside `_prepare_draw` — refuting "raised immediately
at the mutator call ... never deferred to draw time". -/
theorem method_error_deferred_to_draw_cex :
    (set_method img0 "bogus").method = "bogus"
    ∧ prepare_draw (set_method img0 "bogus") view0
        = .error (.unknownMethod "bogus") :=
  ⟨by decide, by decide⟩

/-- C7 (amended): unknown interpolation names and non-positive gamma do
fail immediately at the mutator call; an unknown render method name,
however, is accepted and stored by the method setter, and the
invalid-configuration error for it is raised at draw time, when
`_prepare_draw` reaches the per-view method resolution. -/
theorem config_error_surfacing (s : ImageVisualState) (vw : ViewState)
    (d : ImageData) (m i : String) (v : ℚ)
    (hi : i ∉ s.interpolation_names) (hv : v ≤ 0)
    (hm : m ∉ (["auto", "subdivide", "impostor"] : List String))
    (hd : s.data = some d) (hneed : vw.need_method_update = true)
    (hsm : s.method = m) :
    set_interpolation s i
      = .error (.invalidInterpolation (interpolation_must_be_msg s.interpolation_names))
    ∧ set_gamma s v = .error .nonPositiveGamma
    ∧ (set_method s m).method = m
    ∧ prepare_draw s vw = .error (.unknownMethod m) := by
  have hm1 : m ≠ "auto" := by intro h; exact hm (by simp [h])
  have hm2 : m ≠ "subdivide" := by intro h; exact hm (by simp [h])
  have hm3 : m ≠ "impostor" := by intro h; exact hm (by simp [h])
  refine ⟨by simp [set_interpolation, hi], by simp [set_gamma, hv],
    set_method_method s m, ?_⟩
  have hmeth : ((vertexStep (colorStep (textureStep (interpStep s d).1 d).1 d).1 d).1).method = m := by
    rw [vertexStep_method, colorStep_method, textureStep_method, interpStep_method, hsm]
  unfold prepare_draw
  rw [hd]
  simp only []
  rw [show methodStep (vertexStep (colorStep (textureStep (interpStep s d).1 d).1 d).1 d).1 vw d
        = .error (.unknownMethod m) from ?_]
  · rw [methodStep, hneed]
    simp only [if_true]
    rw [show update_method (vertexStep (colorStep (textureStep (interpStep s d).1 d).1 d).1 d).1 vw d
          = .error (.unknownMethod m) from ?_]
    have := update_method_unknown (vertexStep (colorStep (textureStep (interpStep s d).1 d).1 d).1 d).1 vw d
      (by rw [hmeth]; exact hm1) (by rw [hmeth]; exact hm2) (by rw [hmeth]; exact hm3)
    rw [this, hmeth]

/-- Witness for C7 (amended) at a concrete state with method "bogus". -/
theorem config_error_surfacing_witness :
    ("bogus" ∉ ({ img0 with method := "bogus" } : ImageVisualState).interpolation_names)
    ∧ ((-1 : ℚ) ≤ 0)
    ∧ ("bogus" ∉ (["auto", "subdivide", "impostor"] : List String))
    ∧ ({ img0 with method := "bogus" } : ImageVisualState).data = some data0
    ∧ view0.need_method_update = true
    ∧ ({ img0 with method := "bogus" } : ImageVisualState).method = "bogus"
    ∧ (set_interpolation { img0 with method := "bogus" } "bogus"
        = .error (.invalidInterpolation
            (interpolation_must_be_msg
              ({ img0 with method := "bogus" } : ImageVisualState).interpolation_names))
      ∧ set_gamma { img0 with method := "bogus" } (-1) = .error .nonPositiveGamma
      ∧ (set_method { img0 with method := "bogus" } "bogus").method = "bogus"
      ∧ prepare_draw { img0 with method := "bogus" } view0
          = .error (.unknownMethod "bogus")) :=
  ⟨by decide, by norm_num, by decide, rfl, rfl, rfl,
    config_error_surfacing { img0 with method := "bogus" } view0 data0
      "bogus" "bogus" (-1) (by decide) (by norm_num) (by decide) rfl rfl rfl⟩

lemma flatMap_const_length {α β : Type} (f : α → List β) (k : ℕ)
    (h : ∀ a, (f a).length = k) (l : List α) :
    (l.flatMap f).length = l.length * k := by
  induction l with
  | nil => simp
  | cons a t ih => simp [List.flatMap_cons, h, ih, Nat.succ_mul, Nat.add_comm]

lemma quadTexCoords_length (rows cols i j : ℕ) :
    (quadTexCoords rows cols i j).length = 6 := rfl

lemma subdivTexCoords_length (rows cols : ℕ) :
    (subdivTexCoords rows cols).length = rows * cols * 6 := by
  unfold subdivTexCoords
  have hin : ∀ i,
      ((List.range rows).flatMap fun j => quadTexCoords rows cols i j).length
        = rows * 6 := fun i => by
    rw [flatMap_const_length _ 6 (quadTexCoords_length rows cols i) (List.range rows),
      List.length_range]
  rw [flatMap_const_length _ (rows * 6) hin (List.range cols), List.length_range]
  ring

lemma quadTexCoords_eq (rows cols i j : ℕ) :
    quadTexCoords rows cols i j =
      [((i : ℚ)/cols, (j : ℚ)/rows), (((i : ℚ)+1)/cols, (j : ℚ)/rows),
       (((i : ℚ)+1)/cols, ((j : ℚ)+1)/rows), ((i : ℚ)/cols, (j : ℚ)/rows),
       (((i : ℚ)+1)/cols, ((j : ℚ)+1)/rows), ((i : ℚ)/cols, ((j : ℚ)+1)/rows)] := by
  simp [quadTexCoords, mul_one_div, div_add_div_same]
  simp [div_eq_mul_inv, add_mul]

/-- C4: for `grid = (rows, cols)` with `rows, cols ≥ 1` the subdivide
vertex builder produces texcoord and position buffers of exactly
`rows*cols*6` 2D entries; the texture coordinates tile the unit square
as `rows × cols` axis-aligned quads of two triangles each — quad `(i,j)`
covers `[i/cols, (i+1)/cols] × [j/rows, (j+1)/rows]` — and every
position is the corresponding texture coordinate multiplied
componentwise by the image size `(width, height)`. -/
theorem build_vertex_data_subdivide_grid (rows cols W H : ℕ)
    (s : ImageVisualState) (d : ImageData)
    (hr : 1 ≤ rows) (hc : 1 ≤ cols)
    (hgrid : s.grid = (rows, cols)) (hsize : size d = (W, H)) :
    ((subdivTexCoords rows cols).length = rows * cols * 6
      ∧ (subdivPositions rows cols (W, H)).length = rows * cols * 6)
    ∧ subdivTexCoords rows cols
        = ((List.range cols).flatMap fun i => (List.range rows).flatMap fun j =>
            [((i : ℚ)/cols, (j : ℚ)/rows), (((i : ℚ)+1)/cols, (j : ℚ)/rows),
             (((i : ℚ)+1)/cols, ((j : ℚ)+1)/rows), ((i : ℚ)/cols, (j : ℚ)/rows),
             (((i : ℚ)+1)/cols, ((j : ℚ)+1)/rows), ((i : ℚ)/cols, ((j : ℚ)+1)/rows)])
    ∧ subdivPositions rows cols (W, H)
        = ((subdivTexCoords rows cols).map fun p => (p.1 * (W : ℚ), p.2 * (H : ℚ)))
    ∧ (build_vertex_data s d).subdiv_texcoord = subdivTexCoords rows cols
    ∧ (build_vertex_data s d).subdiv_position = subdivPositions rows cols (W, H) := by
  refine ⟨⟨subdivTexCoords_length rows cols, ?_⟩, ?_, rfl, ?_, ?_⟩
  · rw [subdivPositions, List.length_map, subdivTexCoords_length]
  · simp only [subdivTexCoords, quadTexCoords_eq]
  · rw [build_vertex_data, hgrid]
  · rw [build_vertex_data, hgrid, hsize]

/-- Witness for C4 on a 2x3 grid and a 5x4 image (size 4x5). -/
theorem build_vertex_data_subdivide_grid_witness :
    1 ≤ 2 ∧ 1 ≤ 3
    ∧ ({ img0 with grid := (2, 3) } : ImageVisualState).grid = (2, 3)
    ∧ size { rows := 5, cols := 4, channels := none } = (4, 5)
    ∧ (((subdivTexCoords 2 3).length = 2 * 3 * 6
        ∧ (subdivPositions 2 3 (4, 5)).length = 2 * 3 * 6)
      ∧ subdivTexCoords 2 3
          = ((List.range 3).flatMap fun i => (List.range 2).flatMap fun j =>
              [((i : ℚ)/3, (j : ℚ)/2), (((i : ℚ)+1)/3, (j : ℚ)/2),
               (((i : ℚ)+1)/3, ((j : ℚ)+1)/2), ((i : ℚ)/3, (j : ℚ)/2),
               (((i : ℚ)+1)/3, ((j : ℚ)+1)/2), ((i : ℚ)/3, ((j : ℚ)+1)/2)])
      ∧ subdivPositions 2 3 (4, 5)
          = ((subdivTexCoords 2 3).map fun p => (p.1 * (4 : ℚ), p.2 * (5 : ℚ)))
      ∧ (build_vertex_data { img0 with grid := (2, 3) }
            { rows := 5, cols := 4, channels := none }).subdiv_texcoord
          = subdivTexCoords 2 3
      ∧ (build_vertex_data { img0 with grid := (2, 3) }
            { rows := 5, cols := 4, channels := none }).subdiv_position
          = subdivPositions 2 3 (4, 5)) :=
  ⟨by decide, by decide, rfl, rfl,
    build_vertex_data_subdivide_grid 2 3 4 5 { img0 with grid := (2, 3) }
      { rows := 5, cols := 4, channels := none }
      (by decide) (by decide) rfl rfl⟩

/-- C9: for `grid = (1,1)` the subdivide builder's six positions equal
the impostor quad's six full-area vertices carried onto the image: the
impostor quad covers clip space `[-1,1]^2`, so its full-area vertices
scaled to the image size are `((v+1)/2 * width, (v+1)/2 * height)`, and
these coincide vertex by vertex with `subdivPositions 1 1`. -/
theorem subdivide_grid11_equals_impostor_scaled (W H : ℕ) :
    subdivPositions 1 1 (W, H)
      = impostor_coords.map fun p =>
          ((p.1 + 1)/2 * (W : ℚ), (p.2 + 1)/2 * (H : ℚ)) := by
  simp [subdivPositions, subdivTexCoords, quadTexCoords, impostor_coords,
    List.range_succ]

lemma interpStep_flags (s : ImageVisualState) (d : ImageData) :
    (interpStep s d).1.need_interpolation_update = false
    ∧ (interpStep s d).1.need_texture_upload = s.need_texture_upload
    ∧ (interpStep s d).1.need_colortransform_update = s.need_colortransform_update
    ∧ (interpStep s d).1.need_vertex_update = s.need_vertex_update
    ∧ (interpStep s d).1.texture.internalformat = s.texture.internalformat
    ∧ (interpStep s d).1.color_transform = s.color_transform
    ∧ (interpStep s d).2
        = (if s.need_interpolation_update then [Builder.interpolation] else []) := by
  by_cases h1 : s.need_interpolation_update = true <;>
    by_cases h2 : s.interpolation = "bilinear" <;>
      by_cases h3 : s.interpolation = "nearest" <;>
        simp [interpStep, build_interpolation, h1, h2, h3]

lemma textureStep_flags (s : ImageVisualState) (d : ImageData) :
    (textureStep s d).1.need_texture_upload = false
    ∧ (textureStep s d).1.need_interpolation_update = s.need_interpolation_update
    ∧ (textureStep s d).1.need_colortransform_update
        = (s.need_colortransform_update
            || (s.need_texture_upload
                && decide (adopted_internalformat d ≠ s.texture.internalformat)))
    ∧ (textureStep s d).1.need_vertex_update = s.need_vertex_update
    ∧ (textureStep s d).2 = (if s.need_texture_upload then [Builder.texture] else []) := by
  by_cases h1 : s.need_texture_upload = true <;>
    by_cases h2 : adopted_internalformat d = s.texture.internalformat <;>
      simp [textureStep, build_texture, scale_and_set_data, h1, h2]

lemma colorStep_flags (s : ImageVisualState) (d : ImageData) :
    (colorStep s d).1.need_colortransform_update = false
    ∧ (colorStep s d).1.need_interpolation_update = s.need_interpolation_update
    ∧ (colorStep s d).1.need_texture_upload = s.need_texture_upload
    ∧ (colorStep s d).1.need_vertex_update = s.need_vertex_update
    ∧ (colorStep s d).2
        = (if s.need_colortransform_update then [Builder.colortransform] else []) := by
  by_cases h1 : s.need_colortransform_update = true <;>
    simp [colorStep, build_colortransform_step, h1]

lemma vertexStep_flags (s : ImageVisualState) (d : ImageData) :
    (vertexStep s d).1.need_vertex_update = false
    ∧ (vertexStep s d).1.need_interpolation_update = s.need_interpolation_update
    ∧ (vertexStep s d).1.need_texture_upload = s.need_texture_upload
    ∧ (vertexStep s d).1.need_colortransform_update = s.need_colortransform_update
    ∧ (vertexStep s d).2 = (if s.need_vertex_update then [Builder.vertex] else []) := by
  by_cases h1 : s.need_vertex_update = true <;>
    simp [vertexStep, build_vertex_data, h1]

lemma update_method_ok (s : ImageVisualState) (vw : ViewState) (d : ImageData)
    (p : ImageVisualState × ViewState)
    (h : update_method s vw d = .ok p) :
    p.1.need_interpolation_update = s.need_interpolation_update
    ∧ p.1.need_texture_upload = s.need_texture_upload
    ∧ p.1.need_colortransform_update = s.need_colortransform_update
    ∧ p.1.need_vertex_update = s.need_vertex_update
    ∧ p.2.need_method_update = false := by
  by_cases ha : s.method = "auto" <;> by_cases hl : vw.transform_linear = true <;>
    by_cases hs : s.method = "subdivide" <;> by_cases hi : s.method = "impostor" <;>
      simp [update_method, ha, hl, hs, hi] at h <;>
        (subst h; exact ⟨rfl, rfl, rfl, rfl, rfl⟩)

lemma methodStep_ok (s : ImageVisualState) (vw : ViewState) (d : ImageData)
    (q : ImageVisualState × ViewState × List Builder)
    (hq : methodStep s vw d = .ok q) :
    q.1.need_interpolation_update = s.need_interpolation_update
    ∧ q.1.need_texture_upload = s.need_texture_upload
    ∧ q.1.need_colortransform_update = s.need_colortransform_update
    ∧ q.1.need_vertex_update = s.need_vertex_update
    ∧ q.2.1.need_method_update = false
    ∧ q.2.2 = (if vw.need_method_update then [Builder.methodResolution] else []) := by
  by_cases h1 : vw.need_method_update = true
  · simp only [methodStep, h1, if_true] at hq
    cases hum : update_method s vw d with
    | error e => rw [hum] at hq; cases hq
    | ok p =>
      rw [hum] at hq
      cases hq
      have hp := update_method_ok s vw d p hum
      simp [h1, hp.1, hp.2.1, hp.2.2.1, hp.2.2.2.1, hp.2.2.2.2]
  · simp only [methodStep, h1, if_false, Bool.not_eq_true] at hq
    cases hq
    simp_all

theorem prepare_draw_builders_in_order
    (t s : ImageVisualState) (vw : ViewState) (d : ImageData)
    (s' : ImageVisualState) (vw' : ViewState) (ran : List Builder)
    (ht : t.data = none)
    (hd : s.data = some d)
    (hp : prepare_draw s vw = .ok (.prepared s' vw' ran)) :
    prepare_draw t vw = .ok .nothingToDraw
    ∧ ran = (if s.need_interpolation_update then [Builder.interpolation] else [])
        ++ (if s.need_texture_upload then [Builder.texture] else [])
        ++ (if s.need_colortransform_update
              || (s.need_texture_upload
                  && decide (adopted_internalformat d ≠ s.texture.internalformat))
            then [Builder.colortransform] else [])
        ++ (if s.need_vertex_update then [Builder.vertex] else [])
        ++ (if vw.need_method_update then [Builder.methodResolution] else [])
    ∧ s'.need_interpolation_update = false
    ∧ s'.need_texture_upload = false
    ∧ s'.need_colortransform_update = false
    ∧ s'.need_vertex_update = false
    ∧ vw'.need_method_update = false := by
  refine ⟨by unfold prepare_draw; rw [ht], ?_⟩
  simp only [prepare_draw, hd] at hp
  obtain ⟨i1, i2, i3, i4, i5, i6, i7⟩ := interpStep_flags s d
  obtain ⟨t1, t2, t3, t4, t5⟩ := textureStep_flags (interpStep s d).1 d
  obtain ⟨c1, c2, c3, c4, c5⟩ :=
    colorStep_flags (textureStep (interpStep s d).1 d).1 d
  obtain ⟨v1, v2, v3, v4, v5⟩ :=
    vertexStep_flags (colorStep (textureStep (interpStep s d).1 d).1 d).1 d
  cases hms : methodStep
      (vertexStep (colorStep (textureStep (interpStep s d).1 d).1 d).1 d).1 vw d with
  | error e => rw [hms] at hp; cases hp
  | ok q =>
    rw [hms] at hp
    simp only [Except.ok.injEq, DrawPrep.prepared.injEq] at hp
    obtain ⟨hs', hvw', hran⟩ := hp
    obtain ⟨m1, m2, m3, m4, m5, m6⟩ := methodStep_ok _ vw d q hms
    refine ⟨?_, ?_, ?_, ?_, ?_, ?_⟩
    · rw [← hran, i7, t5, c5, v5, m6, i2, t3, i3, i2, i5, c4, t4, i4]
    · rw [← hs', m1, v2, c2, t2, i1]
    · rw [← hs', m2, v3, c3, t1]
    · rw [← hs', m3, v4, c1]
    · rw [← hs', m4, v1]
    · rw [← hvw', m5]

/-- A 4x4 RGB image: uploading it onto a luminance-format texture
changes the texture internal format. -/
def dataRGB : ImageData := { rows := 4, cols := 4, channels := some 3 }

/-- The counterexample state for the scheduler: a pending texture upload
of RGB data over a luminance texture, color-transform flag clear. -/
def imgCX : ImageVisualState :=
  { img0 with need_texture_upload := true, data := some dataRGB }

/-- A view with no pending method resolution. -/
def viewNM : ViewState := { view0 with need_method_update := false }

/-- C5 counterexample: a state whose color-transform flag is clear but
whose pending upload changes the texture's internal format (luminance
texture, new RGB data): `_prepare_draw` invokes the color-transform
builder although its dirty flag was not set on entry, refuting "invokes
exactly the builders whose dirty flags are set". -/
theorem prepare_draw_entry_flags_cex :
    imgCX.need_colortransform_update = false
    ∧ ranOf (prepare_draw imgCX viewNM)
        = [Builder.texture, Builder.colortransform] :=
  ⟨rfl, by decide⟩

/-- A state with all four dirty flags pending, used as scheduler witness. -/
def imgW : ImageVisualState :=
  { img0 with
    need_interpolation_update := true
    need_texture_upload := true
    need_colortransform_update := true
    need_vertex_update := true }

/-- A visual that never received data. -/
def imgND : ImageVisualState := { img0 with data := none }

/-- Witness for C5 (amended) at concrete states: no data means "nothing
to draw"; with all flags pending every builder runs once, in order, and
all flags are clear afterwards. -/
theorem prepare_draw_builders_in_order_witness :
    imgND.data = none
    ∧ imgW.data = some data0
    ∧ prepare_draw imgW view0
        = .ok (.prepared (prepStateD (prepare_draw imgW view0))
            (prepViewD (prepare_draw imgW view0)) (ranOf (prepare_draw imgW view0)))
    ∧ (prepare_draw imgND view0 = .ok .nothingToDraw
      ∧ ranOf (prepare_draw imgW view0)
          = (if imgW.need_interpolation_update then [Builder.interpolation] else [])
            ++ (if imgW.need_texture_upload then [Builder.texture] else [])
            ++ (if imgW.need_colortransform_update
                  || (imgW.need_texture_upload
                      && decide (adopted_internalformat data0 ≠ imgW.texture.internalformat))
                then [Builder.colortransform] else [])
            ++ (if imgW.need_vertex_update then [Builder.vertex] else [])
            ++ (if view0.need_method_update then [Builder.methodResolution] else [])
      ∧ (prepStateD (prepare_draw imgW view0)).need_interpolation_update = false
      ∧ (prepStateD (prepare_draw imgW view0)).need_texture_upload = false
      ∧ (prepStateD (prepare_draw imgW view0)).need_colortransform_update = false
      ∧ (prepStateD (prepare_draw imgW view0)).need_vertex_update = false
      ∧ (prepViewD (prepare_draw imgW view0)).need_method_update = false) :=
  ⟨rfl, rfl, rfl,
    prepare_draw_builders_in_order imgND imgW view0 data0
      (prepStateD (prepare_draw imgW view0)) (prepViewD (prepare_draw imgW view0))
      (ranOf (prepare_draw imgW view0)) rfl rfl rfl⟩
